import Mathlib

/-!
Formal model of the android-log colorizing logger (`src/main.c`).

Pure fragments of the C program (the color round-robin, the two POSIX
regular expressions, the tag registry seeding and lookup, the log-line
formatting) are embedded as executable Lean functions; the concurrent
fragments (the tag-map check-then-insert path, the global shutdown flag,
the worker start/exit paths) are embedded as explicit step functions and
step relations on small state types.
-/

/-! ### Color palette (enum color, color_ansi_table, round-robin advance) -/

/-- Number of palette entries: `COLOR_NMAX` in the C enum. -/
def COLOR_NMAX : Nat := 12

/-- `COLOR_RED`, the first palette entry. -/
def COLOR_RED : Nat := 0

/-- `COLOR_GREEN`. -/
def COLOR_GREEN : Nat := 1

/-- `COLOR_YELLOW`. -/
def COLOR_YELLOW : Nat := 2

/-- `COLOR_BLUE`. -/
def COLOR_BLUE : Nat := 3

/-- `COLOR_MAGENTA`. -/
def COLOR_MAGENTA : Nat := 4

/-- `COLOR_CYAN`. -/
def COLOR_CYAN : Nat := 5

/-- ANSI codes for the palette, `color_ansi_table` in the C source. -/
def color_ansi_table : List Nat := [31, 32, 33, 34, 35, 36, 91, 92, 93, 94, 95, 96]

/-- Table lookup `color_ansi_table[c]`. -/
def ansiOf (c : Nat) : Nat := color_ansi_table.getD c 0

/-- The shared advance step used by both cyclic color counters:
`++next_color; if (next_color == COLOR_NMAX) next_color = COLOR_RED;`. -/
def nextColorAdvance (c : Nat) : Nat :=
  if c + 1 = COLOR_NMAX then COLOR_RED else c + 1

/-- Value of a `static enum color next_color` counter after `n` allocations
(static-storage zero initialization gives `COLOR_RED` at the start). -/
def counterAfter : Nat → Nat
  | 0 => COLOR_RED
  | n + 1 => nextColorAdvance (counterAfter n)

/-- Color handed to the k-th newly observed device by `find_android_devices`
(the counter value is assigned, then the counter advances). -/
def kthDeviceColor (k : Nat) : Nat := counterAfter (k - 1)

/-- Color handed to the k-th newly observed tag by `run_logcat`. -/
def kthTagColor (k : Nat) : Nat := counterAfter (k - 1)

/-- The two independent static counters: `next_color` in
`find_android_devices` and `next_color` in `run_logcat`. -/
structure Counters where
  devColor : Nat
  tagColor : Nat
deriving DecidableEq

/-- Device-color allocation: reads and advances only the device counter. -/
def allocDeviceColor (s : Counters) : Nat × Counters :=
  (s.devColor, ⟨nextColorAdvance s.devColor, s.tagColor⟩)

/-- Tag-color allocation: reads and advances only the tag counter. -/
def allocTagColor (s : Counters) : Nat × Counters :=
  (s.tagColor, ⟨s.devColor, nextColorAdvance s.tagColor⟩)

/-! ### Line Matcher

The log-line pattern compiled in `run_logcat`:
`^([0-9]\x7b2\x7d-[0-9]\x7b2\x7d [0-9]\x7b2\x7d:[0-9]\x7b2\x7d:[0-9]\x7b2\x7d\.[0-9]\x7b3\x7d) ([A-Z])/([^\(]+)\(([^\)]+)\): (.*)$`
(POSIX ERE; inside a bracket expression a backslash is an ordinary
character, so the tag class excludes both backslash and the opening paren).
The pattern is anchored at both ends and the capture classes exclude their
terminating delimiters, so matching is deterministic and is embedded as a
direct functional parser. -/

/-- Digit class of the pattern. -/
def isDigitChar (c : Char) : Bool := decide ('0' ≤ c) && decide (c ≤ '9')

/-- Uppercase-letter class of the pattern (the level character). -/
def isUpperAZ (c : Char) : Bool := decide ('A' ≤ c) && decide (c ≤ 'Z')

/-- Hexadecimal class of the device-listing identifier. -/
def isHexChar (c : Char) : Bool :=
  isDigitChar c || (decide ('A' ≤ c) && decide (c ≤ 'F')) || (decide ('a' ≤ c) && decide (c ≤ 'f'))

/-- Tag-text class: any character other than backslash and opening paren. -/
def tagChar (c : Char) : Bool := !(c = '(' || c = '\\')

/-- Owner-text class: any character other than backslash and closing paren. -/
def ownerChar (c : Char) : Bool := !(c = ')' || c = '\\')

/-- Literal character inside the pattern. -/
def litChar (x : Char) : Char → Bool := fun c => c = x

/-- Shape of the timestamp capture, `MM-DD HH:MM:SS.mmm`:
one character class per consumed character. -/
def timestampShape : List (Char → Bool) :=
  [isDigitChar, isDigitChar, litChar '-', isDigitChar, isDigitChar, litChar ' ',
   isDigitChar, isDigitChar, litChar ':', isDigitChar, isDigitChar, litChar ':',
   isDigitChar, isDigitChar, litChar '.', isDigitChar, isDigitChar, isDigitChar]

/-- Match a fixed-length shape against the front of the input; on success
return the consumed characters and the remainder. -/
def matchShape : List (Char → Bool) → List Char → Option (List Char × List Char)
  | [], l => some ([], l)
  | _ :: _, [] => none
  | p :: ps, c :: cs =>
      if p c then (matchShape ps cs).map (fun ab => (c :: ab.1, ab.2)) else none

/-- The five captures of the log-line pattern (enum regex_match fields
TIME, TAGTYPE, TAG, OWNER, MESSAGE). -/
structure LogRecord where
  time : List Char
  level : Char
  tag : List Char
  owner : List Char
  message : List Char
deriving DecidableEq

/-- Stage three of the log-line match: the owner capture, its closing paren,
the literal colon-space, and the message capture. -/
def matchOwner (ts : List Char) (lv : Char) (tag rest3 : List Char) : Option LogRecord :=
  match rest3.dropWhile ownerChar with
  | ')' :: ':' :: ' ' :: msg =>
      if rest3.takeWhile ownerChar = [] then none
      else some ⟨ts, lv, tag, rest3.takeWhile ownerChar, msg⟩
  | _ => none

/-- Stage two of the log-line match: the tag capture followed by its
opening paren. -/
def matchTagOwner (ts : List Char) (lv : Char) (rest2 : List Char) : Option LogRecord :=
  match rest2.dropWhile tagChar with
  | '(' :: rest3 =>
      if rest2.takeWhile tagChar = [] then none
      else matchOwner ts lv (rest2.takeWhile tagChar) rest3
  | _ => none

/-- The full log-line matcher: either the five captures or no-match,
mirroring `regexec` on the pattern compiled in `run_logcat`. -/
def matchLogLine (l : List Char) : Option LogRecord :=
  match matchShape timestampShape l with
  | some (ts, ' ' :: lv :: '/' :: rest2) =>
      if isUpperAZ lv then matchTagOwner ts lv rest2 else none
  | _ => none

/-- Reassembly of the five captures into the fixed layout
`<timestamp> <level>/<tag>(<owner>): <message>`. -/
def reassemble (r : LogRecord) : List Char :=
  r.time ++ ' ' :: r.level :: '/' ::
    (r.tag ++ '(' :: (r.owner ++ ')' :: ':' :: ' ' :: r.message))

/-! ### Registries (ccan strmap used as string-keyed map) -/

/-- `strmap_get`: lookup of a key in a string-keyed map, embedded as an
association list (first binding wins). -/
def strmapGet (m : List (List Char × Nat)) (k : List Char) : Option Nat :=
  (m.find? (fun p => p.1 == k)).map (fun p => p.2)

/-- `strmap_add`: inserts a new binding; on a duplicate key it fails and
leaves the map unchanged (first insert wins). -/
def strmapAdd (m : List (List Char × Nat)) (k : List Char) (v : Nat) :
    List (List Char × Nat) :=
  if strmapGet m k = none then m ++ [(k, v)] else m

/-- `strmap_del`: removes the binding of a key, a no-op when absent. -/
def strmapDel (m : List (List Char × Nat)) (k : List Char) :
    List (List Char × Nat) :=
  m.filter (fun p => !(p.1 == k))

/-- The tag registry together with the `static enum color next_color`
counter of `run_logcat`. -/
structure TagState where
  map : List (List Char × Nat)
  ctr : Nat
deriving DecidableEq

/-- The tag-color path of `run_logcat` executed with no interference
(lookup; when absent, allocate the next round-robin color and insert):
returns the color used for the emitted record and the updated state. -/
def resolveTagColor (s : TagState) (tag : List Char) : Nat × TagState :=
  match strmapGet s.map tag with
  | some c => (c, s)
  | none => (s.ctr, ⟨strmapAdd s.map tag s.ctr, nextColorAdvance s.ctr⟩)

/-- One `strmap_add` of a seed tag in `main`: touches only the map, never
the tag-color counter. -/
def addSeed (s : TagState) (k : String) (c : Nat) : TagState :=
  ⟨strmapAdd s.map k.toList c, s.ctr⟩

/-- The tag state after `main` has seeded the four fixed tags. The counter
is `run_logcat`'s static, zero-initialized, untouched by seeding. -/
def mainSeededTagState : TagState :=
  addSeed (addSeed (addSeed (addSeed ⟨[], COLOR_RED⟩
    "dalvikvm" COLOR_BLUE) "Process" COLOR_BLUE)
    "ActivityManager" COLOR_CYAN) "ActivityThread" COLOR_CYAN

/-- The tag map right after seeding. -/
def initialTagMap : List (List Char × Nat) := mainSeededTagState.map

/-- The tag round-robin counter right after seeding. -/
def initialTagCounter : Nat := mainSeededTagState.ctr

/-! ### Record formatting (the sprintf chain of run_logcat) -/

/-- Terminal escape sequence with literal parameter text. -/
def escRaw (params : String) : List Char :=
  '\x1b' :: '[' :: params.toList ++ ['m']

/-- Terminal escape sequence for a palette color, via `color_ansi_table`. -/
def escColor (c : Nat) : List Char :=
  '\x1b' :: '[' :: (Nat.repr (ansiOf c)).toList ++ ['m']

/-- The reset sequence ending each colored field. -/
def resetSeq : List Char := escRaw "0"

/-- Fixed-width field: truncate to `w` characters, then right-pad with
spaces to `w` characters. -/
def padTrunc (w : Nat) (s : List Char) : List Char :=
  s.take w ++ List.replicate (w - s.length) ' '

/-- The level-badge switch of `run_logcat`: a fixed table over the level
letters D, E, F, I, V, W; any other letter appends nothing. -/
def levelBadge (c : Char) : List Char :=
  match c with
  | 'D' => "\x1b[30;44m D \x1b[0m".toList
  | 'E' => "\x1b[30;41m E \x1b[0m".toList
  | 'F' => "\x1b[5;30;41m F \x1b[0m".toList
  | 'I' => "\x1b[30;42m I \x1b[0m".toList
  | 'V' => "\x1b[37m V ".toList
  | 'W' => "\x1b[30;43m W \x1b[0m".toList
  | _ => []

/-- The accumulated log text built by the sprintf chain of `run_logcat`:
device name field, timestamp, owner, tag, a space, the level badge, and
the message. -/
def formatLog (devColor : Nat) (devName : List Char) (tagColor : Nat)
    (r : LogRecord) : List Char :=
  escColor devColor ++ padTrunc 16 devName ++ resetSeq
    ++ [' '] ++ escRaw "34" ++ r.time ++ resetSeq
    ++ [' '] ++ escRaw "30;100" ++ r.owner ++ resetSeq
    ++ [' '] ++ escColor tagColor ++ padTrunc 20 r.tag ++ resetSeq
    ++ [' '] ++ levelBadge r.level
    ++ [' '] ++ escRaw "1;30" ++ r.message ++ resetSeq

/-- Everything the sprintf chain emits before the level badge. -/
def formatHeader (devColor : Nat) (devName : List Char) (tagColor : Nat)
    (r : LogRecord) : List Char :=
  escColor devColor ++ padTrunc 16 devName ++ resetSeq
    ++ [' '] ++ escRaw "34" ++ r.time ++ resetSeq
    ++ [' '] ++ escRaw "30;100" ++ r.owner ++ resetSeq
    ++ [' '] ++ escColor tagColor ++ padTrunc 20 r.tag ++ resetSeq
    ++ [' ']

/-- Everything the sprintf chain emits after the level badge. -/
def formatTail (msg : List Char) : List Char :=
  [' '] ++ escRaw "1;30" ++ msg ++ resetSeq

/-! ### Device-listing matcher and the name copy of find_android_devices -/

/-- Whitespace class of the device-listing pattern. -/
def isWSChar (c : Char) : Bool := c = ' ' || c = '\t'

/-- The device-listing matcher, mirroring `regexec` on the pattern
compiled in `find_android_devices`: a nonempty leading hexadecimal
identifier capture, at least one space or tab, the literal status token,
and an ignored remainder. Returns the identifier capture. -/
def matchDeviceLine (l : List Char) : Option (List Char) :=
  if l.takeWhile isHexChar = [] then none
  else if (l.dropWhile isHexChar).takeWhile isWSChar = [] then none
  else
    match (l.dropWhile isHexChar).dropWhile isWSChar with
    | 'd' :: 'e' :: 'v' :: 'i' :: 'c' :: 'e' :: _ => some (l.takeWhile isHexChar)
    | _ => none

/-- `DEVICE_NAME_NCHARS`, the size of the stack buffer `name`. -/
def DEVICE_NAME_NCHARS : Nat := 64

/-- Number of identifier bytes written by
`strncpy(name, line + start, len)`: exactly the capture length, because
the bound passed to strncpy is the capture length itself and the source
line continues past the capture. -/
def identifierBytesWritten (capture : List Char) : Nat := capture.length

/-- Contents of the 64-byte `name` buffer after `memset` and the copy,
meaningful only while the copy stays inside the buffer. -/
def nameBufferAfterCopy (capture : List Char) : List Char :=
  (capture ++ List.replicate (DEVICE_NAME_NCHARS - capture.length) '\x00').take
    DEVICE_NAME_NCHARS

/-- The device name later read back out of the buffer as a C string. -/
def storedName (capture : List Char) : List Char :=
  (nameBufferAfterCopy capture).takeWhile (fun c => !(c = '\x00'))

/-! ### Device worker start phase (run_logcat lines 350-366) -/

/-- `RETRIES_NMAX`, the retry bound of the start loop. -/
def RETRIES_NMAX : Nat := 10

/-- Outcome of the start phase: the streaming loop is reached with the
log source open, or the worker returns early. -/
inductive StartOutcome where
  | streaming (attempt : Nat)
  | terminated
deriving DecidableEq

/-- The do-while retry loop of `run_logcat`: `popen` outcomes are an
oracle indexed by attempt number; on failure the retry counter increments
and the worker returns once it exceeds `RETRIES_NMAX`. -/
def startLoop (oracle : Nat → Bool) (attempt retries : Nat) : StartOutcome :=
  if oracle attempt then StartOutcome.streaming attempt
  else if RETRIES_NMAX < retries + 1 then StartOutcome.terminated
  else startLoop oracle (attempt + 1) (retries + 1)
termination_by RETRIES_NMAX + 1 - retries
decreasing_by
  simp only [RETRIES_NMAX] at *
  omega

/-- The start phase entered with a fresh retry counter. -/
def startPhase (oracle : Nat → Bool) : StartOutcome := startLoop oracle 0 0

/-- What a worker thread has done by the time it returns. -/
structure WorkerExit where
  enteredStreaming : Bool
  removedRegistryEntry : Bool
  freedDeviceStruct : Bool
  closedLogSource : Bool
deriving DecidableEq

/-- Observable effects of a `run_logcat` thread by the time it returns.
The early return on retry exhaustion (line 362) performs no cleanup at
all; the normal exit path after end-of-stream (lines 476-479) calls
`strmap_del` and `free` but the program contains no `pclose`/`fclose`
for the handle. -/
def runLogcatExit (oracle : Nat → Bool) : WorkerExit :=
  match startPhase oracle with
  | StartOutcome.terminated => ⟨false, false, false, false⟩
  | StartOutcome.streaming _ => ⟨true, true, true, false⟩

/-! ### Interleaving model of the tag check-then-insert path

Two workers run the tag-color code of `run_logcat` for the same tag.
Each lock-protected region is one atomic step: the map lookup under
`tag_map_lock` (lines 414-416), the allocation under `color_lock`
(lines 421-428), and the insert under `tag_map_lock` (lines 431-433);
the emitted color is the worker's local `*color`. A schedule is the
order in which the two workers take their next steps. -/

/-- Shared and per-worker state of the two-worker tag race. Program
counters: 0 = before lookup, 1 = before allocate, 2 = before insert,
3 = done. -/
structure RaceState where
  map : List (List Char × Nat)
  ctr : Nat
  pc1 : Nat
  pc2 : Nat
  loc1 : Nat
  loc2 : Nat
  emit1 : Option Nat
  emit2 : Option Nat
deriving DecidableEq

/-- Worker one takes its next atomic step of the tag-color path. -/
def raceStep1 (t : List Char) (s : RaceState) : RaceState :=
  match s.pc1 with
  | 0 =>
    match strmapGet s.map t with
    | some c => ⟨s.map, s.ctr, 3, s.pc2, s.loc1, s.loc2, some c, s.emit2⟩
    | none => ⟨s.map, s.ctr, 1, s.pc2, s.loc1, s.loc2, s.emit1, s.emit2⟩
  | 1 => ⟨s.map, nextColorAdvance s.ctr, 2, s.pc2, s.ctr, s.loc2, s.emit1, s.emit2⟩
  | 2 => ⟨strmapAdd s.map t s.loc1, s.ctr, 3, s.pc2, s.loc1, s.loc2, some s.loc1, s.emit2⟩
  | _ => s

/-- Worker two takes its next atomic step of the tag-color path. -/
def raceStep2 (t : List Char) (s : RaceState) : RaceState :=
  match s.pc2 with
  | 0 =>
    match strmapGet s.map t with
    | some c => ⟨s.map, s.ctr, s.pc1, 3, s.loc1, s.loc2, s.emit1, some c⟩
    | none => ⟨s.map, s.ctr, s.pc1, 1, s.loc1, s.loc2, s.emit1, s.emit2⟩
  | 1 => ⟨s.map, nextColorAdvance s.ctr, s.pc1, 2, s.loc1, s.ctr, s.emit1, s.emit2⟩
  | 2 => ⟨strmapAdd s.map t s.loc2, s.ctr, s.pc1, 3, s.loc1, s.loc2, s.emit1, some s.loc2⟩
  | _ => s

/-- One scheduled step: `true` schedules worker one, `false` worker two. -/
def raceStep (t : List Char) (s : RaceState) (w : Bool) : RaceState :=
  if w then raceStep1 t s else raceStep2 t s

/-- A tag not among the seeds, first seen simultaneously by two workers. -/
def raceTag : List Char := "MyService".toList

/-- Both workers at the top of the tag-color path, seeded registry,
fresh tag counter. -/
def raceInit : RaceState :=
  ⟨initialTagMap, initialTagCounter, 0, 0, 0, 0, none, none⟩

/-- Run a schedule from the initial race state. -/
def runRace (sched : List Bool) : RaceState :=
  sched.foldl (raceStep raceTag) raceInit

/-- The interleaving in which both workers perform their lookups before
either inserts. -/
def badSchedule : List Bool := [true, false, true, true, false, false]

/-! ### Global transition system and the shutdown flag -/

/-- The shared mutable state of the process: the shutdown flag, the device
registry with its color counter, and the tag registry with its counter. -/
structure SysState where
  shutdownFlag : Bool
  deviceMap : List (List Char × Nat)
  devCtr : Nat
  tags : TagState
deriving DecidableEq

/-- State at the end of `main`'s setup: flag statically initialized to
false, empty device registry, seeded tag registry. -/
def initSysState : SysState :=
  ⟨false, [], COLOR_RED, mainSeededTagState⟩

/-- The state mutations the program can perform: a discovery pass adds an
absent device and advances the device color counter
(`find_android_devices`); a worker resolves a tag color (`run_logcat`);
a worker removes its own device entry on exit (`run_logcat` line 477).
No statement in the program assigns to `shutdown`. -/
inductive SysStep : SysState → SysState → Prop where
  | discover (s : SysState) (name : List Char)
      (h : strmapGet s.deviceMap name = none) :
      SysStep s ⟨s.shutdownFlag, strmapAdd s.deviceMap name s.devCtr,
        nextColorAdvance s.devCtr, s.tags⟩
  | observeTag (s : SysState) (t : List Char) :
      SysStep s ⟨s.shutdownFlag, s.deviceMap, s.devCtr, (resolveTagColor s.tags t).2⟩
  | workerExit (s : SysState) (name : List Char) :
      SysStep s ⟨s.shutdownFlag, strmapDel s.deviceMap name, s.devCtr, s.tags⟩

/-- Reachability from the post-setup state. -/
def SysReachable (s : SysState) : Prop :=
  Relation.ReflTransGen SysStep initSysState s

/-- The guard of `run_find_devices`: `while (!shutdown)`. -/
def findDevicesLoopGuard (s : SysState) : Bool := !s.shutdownFlag

/-- The discovery loop terminates (and `main` then exits with status 0)
only when the flag has been raised. -/
def normalTerminationReached (s : SysState) : Prop := s.shutdownFlag = true

/-! ### Helper lemmas -/

theorem counterAfter_mod (n : Nat) : counterAfter n = n % COLOR_NMAX := by
  induction n with
  | zero => rfl
  | succ n ih =>
    rw [counterAfter, ih, nextColorAdvance]
    unfold COLOR_NMAX COLOR_RED
    split <;> omega

theorem matchShape_eq_append (ps : List (Char → Bool)) :
    ∀ (l a b : List Char), matchShape ps l = some (a, b) → l = a ++ b := by
  induction ps with
  | nil =>
    intro l a b h
    simp only [matchShape, Option.some.injEq, Prod.mk.injEq] at h
    rw [← h.1, ← h.2]
    rfl
  | cons p ps ih =>
    intro l a b h
    cases l with
    | nil => simp [matchShape] at h
    | cons c cs =>
      rw [matchShape] at h
      by_cases hp : p c
      · rw [if_pos hp] at h
        cases hms : matchShape ps cs with
        | none => rw [hms] at h; simp at h
        | some ab =>
          obtain ⟨a0, b0⟩ := ab
          rw [hms] at h
          simp at h
          rw [← h.1, ← h.2, List.cons_append]
          exact congrArg (c :: ·) (ih cs a0 b0 hms)
      · rw [if_neg hp] at h
        simp at h

theorem matchOwner_sound (ts : List Char) (lv : Char) (tag rest3 : List Char)
    (r : LogRecord) (h : matchOwner ts lv tag rest3 = some r) :
    r.time = ts ∧ r.level = lv ∧ r.tag = tag ∧
    rest3 = r.owner ++ ')' :: ':' :: ' ' :: r.message := by
  unfold matchOwner at h
  split at h
  case _ msg heq =>
    split at h
    · simp at h
    · injection h with h
      rw [← h]
      refine ⟨rfl, rfl, rfl, ?_⟩
      conv_lhs => rw [← List.takeWhile_append_dropWhile (p := ownerChar) (l := rest3)]
      rw [heq]
  case _ => simp at h

theorem matchTagOwner_sound (ts : List Char) (lv : Char) (rest2 : List Char)
    (r : LogRecord) (h : matchTagOwner ts lv rest2 = some r) :
    r.time = ts ∧ r.level = lv ∧
    rest2 = r.tag ++ '(' :: (r.owner ++ ')' :: ':' :: ' ' :: r.message) := by
  unfold matchTagOwner at h
  split at h
  case _ rest3 heq =>
    split at h
    · simp at h
    · obtain ⟨h1, h2, h3, h4⟩ := matchOwner_sound _ _ _ _ _ h
      refine ⟨h1, h2, ?_⟩
      conv_lhs => rw [← List.takeWhile_append_dropWhile (p := tagChar) (l := rest2)]
      rw [heq, h3, ← h4]
  case _ => simp at h

/-! ### Claim theorems -/

/-- C1: the claim states that the registry check-then-insert pair behaves
atomically under concurrency, so that concurrent duplicate inserts of the
same tag allocate exactly one color and each observed tag is bound to
exactly one color. The code drops `tag_map_lock` between the lookup and
the insert, so there is an interleaving of two workers first observing the
same tag in which both allocate: the tag counter advances twice, worker
one emits the tag in `COLOR_RED` while worker two emits it in
`COLOR_GREEN`, and only worker one's binding lands in the registry. -/
theorem tag_insert_race_two_colors :
    (runRace badSchedule).emit1 = some COLOR_RED ∧
    (runRace badSchedule).emit2 = some COLOR_GREEN ∧
    (runRace badSchedule).emit1 ≠ (runRace badSchedule).emit2 ∧
    strmapGet (runRace badSchedule).map raceTag = some COLOR_RED ∧
    (runRace badSchedule).ctr = nextColorAdvance (nextColorAdvance initialTagCounter) ∧
    (runRace badSchedule).pc1 = 3 ∧ (runRace badSchedule).pc2 = 3 := by
  exact ⟨by decide, by decide, by decide, by decide, by decide, by decide, by decide⟩

/-- C2: a worker whose `popen` fails on every attempt never enters the
streaming loop (that part of the claim holds), but its early return skips
the cleanup block, so — contrary to the claim — the device registry entry
is not removed (and the device struct is not freed either). -/
theorem retry_exhaustion_leaves_registry_entry :
    startPhase (fun _ => false) = StartOutcome.terminated ∧
    runLogcatExit (fun _ => false) = ⟨false, false, false, false⟩ := by
  constructor
  · simp [startPhase, startLoop, RETRIES_NMAX]
  · simp [runLogcatExit, startPhase, startLoop, RETRIES_NMAX]

/-- C3: on every exit path of `run_logcat` the log source handle is left
open — the program contains no `pclose` — so the claim that a terminating
worker releases its log source handle fails; on the end-of-stream path
the registry entry is removed and the struct freed, but the handle is not
closed. -/
theorem worker_exit_never_closes_log_source :
    (∀ oracle : Nat → Bool, (runLogcatExit oracle).closedLogSource = false) ∧
    runLogcatExit (fun _ => true) = ⟨true, true, true, false⟩ := by
  constructor
  · intro oracle
    unfold runLogcatExit
    split <;> rfl
  · simp [runLogcatExit, startPhase, startLoop]

/-- Witness for `worker_exit_never_closes_log_source` at a concrete
oracle that succeeds on the fourth attempt. -/
theorem worker_exit_never_closes_log_source_witness :
    (runLogcatExit (fun n => n == 3)).closedLogSource = false :=
  worker_exit_never_closes_log_source.1 (fun n => n == 3)

/-- C4: the k-th newly observed device is assigned palette index
(k-1) mod 12 and the k-th newly allocated tag color is palette index
(k-1) mod 12; the first allocation of each counter yields `COLOR_RED`;
each counter wraps from the last palette entry back to the first; and
neither allocation operation influences the other counter. -/
theorem kth_color_round_robin :
    (∀ k : Nat, 1 ≤ k →
      kthDeviceColor k = (k - 1) % COLOR_NMAX ∧
      kthTagColor k = (k - 1) % COLOR_NMAX) ∧
    kthDeviceColor 1 = COLOR_RED ∧ kthTagColor 1 = COLOR_RED ∧
    nextColorAdvance (COLOR_NMAX - 1) = COLOR_RED ∧
    (∀ s : Counters,
      (allocDeviceColor s).2.tagColor = s.tagColor ∧
      (allocTagColor s).2.devColor = s.devColor) := by
  exact ⟨fun k _ => ⟨counterAfter_mod _, counterAfter_mod _⟩, rfl, rfl, rfl,
    fun s => ⟨rfl, rfl⟩⟩

/-- Witness for `kth_color_round_robin` at k = 13: the 13-th color of each
counter wraps back to the first palette entry. -/
theorem kth_color_round_robin_witness :
    kthDeviceColor 13 = (13 - 1) % COLOR_NMAX ∧ kthTagColor 13 = (13 - 1) % COLOR_NMAX :=
  kth_color_round_robin.1 13 (by decide)

set_option maxRecDepth 10000 in
/-- C5: scenario B. The concrete log line parses to the five claimed
fields; the tag `ActivityManager` resolves in the seeded registry to
`COLOR_CYAN` without modifying registry or counter; and the formatted
record colors the tag field with the ANSI sequence of `COLOR_CYAN`. -/
theorem scenarioB_parse_and_color :
    matchLogLine "08-14 10:22:01.123 I/ActivityManager(1234): Starting activity".toList =
      some ⟨"08-14 10:22:01.123".toList, 'I', "ActivityManager".toList, "1234".toList,
        "Starting activity".toList⟩ ∧
    (resolveTagColor mainSeededTagState "ActivityManager".toList).1 = COLOR_CYAN ∧
    (resolveTagColor mainSeededTagState "ActivityManager".toList).2 = mainSeededTagState ∧
    (escColor COLOR_CYAN ++ padTrunc 20 "ActivityManager".toList) <:+:
      formatLog COLOR_RED "emulator-5554".toList COLOR_CYAN
        ⟨"08-14 10:22:01.123".toList, 'I', "ActivityManager".toList, "1234".toList,
          "Starting activity".toList⟩ := by
  exact ⟨by decide, by decide, by decide, by decide⟩

/-- C6: the level-to-badge mapping is the fixed table over the closed set
D, E, F, I, V, W; any other level character yields no badge; and in every
case the formatted record is the header (device name, timestamp, owner,
tag fields), then the badge, then the message segment — so the rest of
the record is emitted whether or not a badge exists. -/
theorem level_badge_table :
    (levelBadge 'D' = "\x1b[30;44m D \x1b[0m".toList ∧
     levelBadge 'E' = "\x1b[30;41m E \x1b[0m".toList ∧
     levelBadge 'F' = "\x1b[5;30;41m F \x1b[0m".toList ∧
     levelBadge 'I' = "\x1b[30;42m I \x1b[0m".toList ∧
     levelBadge 'V' = "\x1b[37m V ".toList ∧
     levelBadge 'W' = "\x1b[30;43m W \x1b[0m".toList) ∧
    (∀ c : Char, c ∉ (['D', 'E', 'F', 'I', 'V', 'W'] : List Char) → levelBadge c = []) ∧
    (∀ (dc : Nat) (dn : List Char) (tc : Nat) (r : LogRecord),
      formatLog dc dn tc r =
        formatHeader dc dn tc r ++ levelBadge r.level ++ formatTail r.message) := by
  refine ⟨⟨rfl, rfl, rfl, rfl, rfl, rfl⟩, ?_, ?_⟩
  · intro c hc
    unfold levelBadge
    split <;> simp_all
  · intro dc dn tc r
    simp [formatLog, formatHeader, formatTail, List.append_assoc]

/-- Witness for `level_badge_table` at the unrecognized level letter X:
no badge, yet the record still carries header and message. -/
theorem level_badge_table_witness :
    levelBadge 'X' = [] ∧
    formatLog 0 "emulator-5554".toList 1
        ⟨"08-14 10:22:01.123".toList, 'X', "MyTag".toList, "77".toList, "hi".toList⟩ =
      formatHeader 0 "emulator-5554".toList 1
          ⟨"08-14 10:22:01.123".toList, 'X', "MyTag".toList, "77".toList, "hi".toList⟩
        ++ levelBadge 'X' ++ formatTail "hi".toList :=
  ⟨level_badge_table.2.1 'X' (by decide),
   level_badge_table.2.2 0 "emulator-5554".toList 1
     ⟨"08-14 10:22:01.123".toList, 'X', "MyTag".toList, "77".toList, "hi".toList⟩⟩

/-- C7: for every input line that the log-line matcher accepts,
reassembling the five captures into the fixed layout
`<timestamp> <level>/<tag>(<owner>): <message>` reproduces the original
line exactly. -/
theorem log_line_round_trip (l : List Char) (r : LogRecord)
    (h : matchLogLine l = some r) : reassemble r = l := by
  unfold matchLogLine at h
  split at h
  case _ ts lv rest2 heq =>
    split at h
    · obtain ⟨h1, h2, h3⟩ := matchTagOwner_sound _ _ _ _ h
      have hl := matchShape_eq_append timestampShape l ts (' ' :: lv :: '/' :: rest2) heq
      unfold reassemble
      rw [h1, h2, ← h3, hl]
    · simp at h
  case _ => simp at h

/-- Witness for `log_line_round_trip` at a concrete matched line. -/
theorem log_line_round_trip_witness :
    reassemble ⟨"01-02 03:04:05.678".toList, 'W', "GpsLocationProvider".toList,
        "429".toList, "no fix".toList⟩ =
      "01-02 03:04:05.678 W/GpsLocationProvider(429): no fix".toList :=
  log_line_round_trip "01-02 03:04:05.678 W/GpsLocationProvider(429): no fix".toList
    ⟨"01-02 03:04:05.678".toList, 'W', "GpsLocationProvider".toList,
      "429".toList, "no fix".toList⟩ (by decide)

/-- C8: no transition of the program writes the shutdown flag, so it is
false in every reachable state, the guard of `run_find_devices` always
stays true, and the normal-termination condition is never reached. -/
theorem shutdown_flag_never_set (s : SysState) (h : SysReachable s) :
    s.shutdownFlag = false ∧ findDevicesLoopGuard s = true ∧
      ¬normalTerminationReached s := by
  have hflag : s.shutdownFlag = false := by
    unfold SysReachable at h
    induction h with
    | refl => rfl
    | tail _ st ih => cases st <;> simpa using ih
  refine ⟨hflag, ?_, ?_⟩
  · simp [findDevicesLoopGuard, hflag]
  · simp [normalTerminationReached, hflag]

/-- Witness for `shutdown_flag_never_set` at the state reached by one
discovery step from the initial state. -/
theorem shutdown_flag_never_set_witness :
    (⟨initSysState.shutdownFlag,
       strmapAdd initSysState.deviceMap "ABC123".toList initSysState.devCtr,
       nextColorAdvance initSysState.devCtr, initSysState.tags⟩ : SysState).shutdownFlag
        = false ∧
    findDevicesLoopGuard ⟨initSysState.shutdownFlag,
       strmapAdd initSysState.deviceMap "ABC123".toList initSysState.devCtr,
       nextColorAdvance initSysState.devCtr, initSysState.tags⟩ = true ∧
    ¬normalTerminationReached ⟨initSysState.shutdownFlag,
       strmapAdd initSysState.deviceMap "ABC123".toList initSysState.devCtr,
       nextColorAdvance initSysState.devCtr, initSysState.tags⟩ :=
  shutdown_flag_never_set _
    (Relation.ReflTransGen.single
      (SysStep.discover initSysState "ABC123".toList (by decide)))

/-- C9: after `main`'s seeding the tag registry holds exactly the four
seeded tags with blue for dalvikvm and Process and cyan for
ActivityManager and ActivityThread, the tag round-robin counter still
sits at `COLOR_RED`, and the first dynamically observed tag therefore
receives palette index 0 (red). -/
theorem seeded_tag_registry :
    strmapGet initialTagMap "dalvikvm".toList = some COLOR_BLUE ∧
    strmapGet initialTagMap "Process".toList = some COLOR_BLUE ∧
    strmapGet initialTagMap "ActivityManager".toList = some COLOR_CYAN ∧
    strmapGet initialTagMap "ActivityThread".toList = some COLOR_CYAN ∧
    initialTagMap.length = 4 ∧
    initialTagCounter = COLOR_RED ∧
    (∀ t : List Char, strmapGet initialTagMap t = none →
      (resolveTagColor ⟨initialTagMap, initialTagCounter⟩ t).1 = COLOR_RED ∧
        COLOR_RED = 0) := by
  refine ⟨by decide, by decide, by decide, by decide, by decide, by decide, ?_⟩
  intro t ht
  refine ⟨?_, rfl⟩
  unfold resolveTagColor
  simp only at *
  rw [ht]
  rfl

/-- Witness for `seeded_tag_registry`: the unseeded tag Zygote is the
first dynamic observation and receives red. -/
theorem seeded_tag_registry_witness :
    (resolveTagColor ⟨initialTagMap, initialTagCounter⟩ "Zygote".toList).1 = COLOR_RED ∧
      COLOR_RED = 0 :=
  seeded_tag_registry.2.2.2.2.2.2 "Zygote".toList (by decide)

/-- C10: the claim states the name copy writes at most 63 identifier
bytes. The copy bound passed to `strncpy` is the capture length, and the
listing pattern accepts identifiers far longer than the buffer: a matched
64-character identifier already writes 64 identifier bytes (leaving the
64-byte buffer unterminated), and a matched 100-character identifier
writes past the end of the buffer. For captures of at most 63 characters
the stored name does equal the capture text. -/
theorem listing_name_copy_overflow :
    matchDeviceLine (List.replicate 64 '0' ++ '\t' :: "device".toList) =
      some (List.replicate 64 '0') ∧
    identifierBytesWritten (List.replicate 64 '0') = 64 ∧
    DEVICE_NAME_NCHARS - 1 < identifierBytesWritten (List.replicate 64 '0') ∧
    matchDeviceLine (List.replicate 100 'a' ++ ' ' :: "device".toList) =
      some (List.replicate 100 'a') ∧
    DEVICE_NAME_NCHARS < identifierBytesWritten (List.replicate 100 'a') ∧
    storedName (List.replicate 63 'b') = List.replicate 63 'b' := by
  exact ⟨by decide, by decide, by decide, by decide, by decide, by decide⟩
